import Mathlib

/-!
Verification of the Wayland surface/event coordinator of this repository
against its specification.  Definitions are shallow embeddings of the Rust
sources:

* `windowIdUnique` — core/src/window/id.rs (`Id::unique`, `Id::NONE`)
* `widgetIdAt`, `windowNodeIdAt` — accessibility/src/id.rs
  (`Id::next`, `window_node_id`)
* `edgeHitTest`, `pointerFrame` —
  winit/src/platform_specific/wayland/handlers/seat/pointer.rs
* `scaleFactorChanged`, `normalizeLayerSize`, `getLayerSurfaceRecord`,
  `handleAction`, `popupDestroy` —
  winit/src/platform_specific/wayland/event_loop/state.rs
* `endOfWakeUp`, `dispatchWakeUp` —
  winit/src/platform_specific/wayland/event_loop/mod.rs

Machine integers are modelled as `Nat` with an explicit `% 2 ^ 64` wherever
the source relies on wrapping arithmetic; `f64` values that are only ever
compared or copied (pointer positions, border widths, scale factors) are
modelled as `ℚ`.  Wayland protocol requests are modelled as an explicit
trace of `Request` values; messages to the UI thread as `SctkEvent` /
`Control` values.
-/

namespace Iced

/-- Size of the 64-bit unsigned-integer domain. -/
def U64 : Nat := 2 ^ 64

/-- Value of `u32::MAX`. -/
def U32MAX : Nat := 2 ^ 32 - 1

/-- An `AtomicU64::fetch_add(1)`: returns the previous value; the counter
wraps at `2 ^ 64`. -/
def fetchAdd1 (c : Nat) : Nat × Nat := (c, (c + 1) % U64)

/-- The reserved id `Id::NONE` of core/src/window/id.rs. -/
def windowIdNONE : Nat := 0

/-- The body of `Id::unique` of core/src/window/id.rs applied to the current
counter value: one `fetch_add`, and a second one should the first have
returned zero. -/
def windowIdUnique (c : Nat) : Nat × Nat :=
  let r := fetchAdd1 c
  if r.1 = 0 then fetchAdd1 r.2 else r

/-- Counter value of `NEXT_ID` (accessibility/src/id.rs) before the k-th
widget-id mint; the counter starts at 1. -/
def widgetCtr : Nat → Nat
  | 0 => 1
  | k + 1 => (fetchAdd1 (widgetCtr k)).2

/-- The widget id produced by the k-th (0-indexed) call to `Id::next`. -/
def widgetIdAt (k : Nat) : Nat := (fetchAdd1 (widgetCtr k)).1

/-- The body of `window_node_id` of accessibility/src/id.rs applied to the
current `NEXT_WINDOW_ID` value: `u32::MAX as u64 + fetch_add(1)` with
wrapping u64 addition. -/
def windowNodeId (c : Nat) : Nat × Nat :=
  let r := fetchAdd1 c
  ((U32MAX + r.1) % U64, r.2)

/-- Counter value of `NEXT_WINDOW_ID` before the k-th window-node-id mint;
the counter starts at 1. -/
def windowNodeCtr : Nat → Nat
  | 0 => 1
  | k + 1 => (windowNodeId (windowNodeCtr k)).2

/-- The window node id produced by the k-th call to `window_node_id`. -/
def windowNodeIdAt (k : Nat) : Nat := (windowNodeId (windowNodeCtr k)).1

/-- Counter value of `COUNT` (core/src/window/id.rs) before the k-th call to
`Id::unique`; the counter starts at 1. -/
def windowUniqueCtr : Nat → Nat
  | 0 => 1
  | k + 1 => (windowIdUnique (windowUniqueCtr k)).2

/-- The window id produced by the k-th call to `Id::unique`. -/
def windowUniqueIdAt (k : Nat) : Nat := (windowIdUnique (windowUniqueCtr k)).1

theorem widgetCtr_eq (k : Nat) : widgetCtr k = (1 + k) % U64 := by
  induction k with
  | zero =>
      simp [widgetCtr]
      exact (Nat.mod_eq_of_lt (by norm_num [U64])).symm
  | succ k ih =>
      show (fetchAdd1 (widgetCtr k)).2 = (1 + (k + 1)) % U64
      rw [ih]
      show ((1 + k) % U64 + 1) % U64 = (1 + (k + 1)) % U64
      conv_rhs => rw [show 1 + (k + 1) = (1 + k) + 1 by ring]
      have h1 : (1 : Nat) % U64 = 1 := Nat.mod_eq_of_lt (by norm_num [U64])
      rw [Nat.add_mod (1 + k) 1 U64, h1]

theorem windowNodeCtr_eq (k : Nat) : windowNodeCtr k = (1 + k) % U64 := by
  induction k with
  | zero =>
      simp [windowNodeCtr]
      exact (Nat.mod_eq_of_lt (by norm_num [U64])).symm
  | succ k ih =>
      show (windowNodeId (windowNodeCtr k)).2 = (1 + (k + 1)) % U64
      rw [ih]
      show ((1 + k) % U64 + 1) % U64 = (1 + (k + 1)) % U64
      conv_rhs => rw [show 1 + (k + 1) = (1 + k) + 1 by ring]
      have h1 : (1 : Nat) % U64 = 1 := Nat.mod_eq_of_lt (by norm_num [U64])
      rw [Nat.add_mod (1 + k) 1 U64, h1]

theorem widgetIdAt_eq (k : Nat) : widgetIdAt k = (1 + k) % U64 := by
  rw [widgetIdAt, fetchAdd1, widgetCtr_eq]

theorem windowNodeIdAt_eq (k : Nat) :
    windowNodeIdAt k = (U32MAX + (1 + k) % U64) % U64 := by
  rw [windowNodeIdAt, windowNodeId, fetchAdd1, windowNodeCtr_eq]

theorem windowUniqueCtr_eq (k : Nat) (h : 1 + k < U64) :
    windowUniqueCtr k = 1 + k := by
  induction k with
  | zero => rfl
  | succ k ih =>
      have hk : 1 + k < U64 := by omega
      show (windowIdUnique (windowUniqueCtr k)).2 = 1 + (k + 1)
      rw [ih hk, windowIdUnique]
      have hne : (fetchAdd1 (1 + k)).1 ≠ 0 := by simp [fetchAdd1]
      rw [if_neg hne]
      show (1 + k + 1) % U64 = 1 + (k + 1)
      rw [Nat.mod_eq_of_lt (by omega)]
      ring

theorem windowUniqueIdAt_eq (k : Nat) (h : 1 + k < U64) :
    windowUniqueIdAt k = 1 + k := by
  rw [windowUniqueIdAt, windowUniqueCtr_eq k h, windowIdUnique]
  have hne : (fetchAdd1 (1 + k)).1 ≠ 0 := by simp [fetchAdd1]
  rw [if_neg hne]
  rfl

/-- C10: every id returned by `Id::unique` differs from `Id::NONE`
(the reserved zero id), for every value of the internal 64-bit counter,
including the value 0 reached after the counter wraps around: the generator
retries once when `fetch_add` returned zero, and that retry returns 1. -/
theorem c10_unique_never_none (c : Nat) :
    (windowIdUnique c).1 ≠ windowIdNONE := by
  rw [windowIdUnique, windowIdNONE]
  by_cases h : c = 0
  · subst h
    simp [fetchAdd1, U64]
  · simp [fetchAdd1, h]

/-- C5 counterexample: the widget id minted by the `2 ^ 32 - 1`-th call to
`Id::next` (value `2 ^ 32`) equals the window node id minted by the very
first call to `window_node_id`, so freshly minted window ids and widget ids
are not disjoint: the widget counter is a full 64-bit counter, not confined
to the 32-bit range. -/
theorem c5_counterexample :
    widgetIdAt (2 ^ 32 - 1) = windowNodeIdAt 0 := by
  rw [widgetIdAt_eq, windowNodeIdAt_eq]
  norm_num [U64, U32MAX]

/-- C5 amended: window node ids are disjoint from widget ids as long as
fewer than `2 ^ 32 - 1` widget ids have been minted and the window-node
counter has not wrapped; window node ids are strictly monotone until the
wrapping u64 addition overflows, and `Id::unique` window ids are strictly
monotone until their counter wraps. -/
theorem c5_amended_disjoint_monotone :
    (∀ j k, 1 + j < 2 ^ 32 → 2 ^ 32 + k < U64 →
      windowNodeIdAt k ≠ widgetIdAt j)
    ∧ (∀ k k2, k < k2 → 2 ^ 32 + k2 < U64 →
      windowNodeIdAt k < windowNodeIdAt k2)
    ∧ (∀ k k2, k < k2 → 1 + k2 < U64 →
      windowUniqueIdAt k < windowUniqueIdAt k2) := by
  have hnode : ∀ k, 2 ^ 32 + k < U64 → windowNodeIdAt k = 2 ^ 32 + k := by
    intro k hk
    rw [windowNodeIdAt_eq]
    have h1 : 1 + k < U64 := by omega
    rw [Nat.mod_eq_of_lt h1, U32MAX]
    rw [Nat.mod_eq_of_lt (by omega)]
    omega
  refine ⟨?_, ?_, ?_⟩
  · intro j k hj hk
    rw [hnode k hk, widgetIdAt_eq]
    have h1 : 1 + j < U64 := by
      have : (2 : Nat) ^ 32 < U64 := by norm_num [U64]
      omega
    rw [Nat.mod_eq_of_lt h1]
    omega
  · intro k k2 hkk hk2
    rw [hnode k (by omega), hnode k2 hk2]
    omega
  · intro k k2 hkk hk2
    rw [windowUniqueIdAt_eq k (by omega), windowUniqueIdAt_eq k2 hk2]
    omega

/-- C5 amended witness: disjointness and monotonicity at concrete
indices 0 and 1. -/
theorem c5_amended_witness :
    windowNodeIdAt 0 ≠ widgetIdAt 0 ∧
    windowNodeIdAt 0 < windowNodeIdAt 1 ∧
    windowUniqueIdAt 0 < windowUniqueIdAt 1 :=
  ⟨c5_amended_disjoint_monotone.1 0 0 (by norm_num) (by norm_num [U64]),
   c5_amended_disjoint_monotone.2.1 0 1 (by norm_num) (by norm_num [U64]),
   c5_amended_disjoint_monotone.2.2 0 1 (by norm_num) (by norm_num [U64])⟩

/-- Resize edges of xdg_toplevel, as used by the pointer handler. -/
inductive ResizeEdge where
  | Top
  | Bottom
  | Left
  | Right
  | TopLeft
  | BottomLeft
  | TopRight
  | BottomRight
deriving DecidableEq, Repr

/-- The resize-edge hit test of `PointerHandler::pointer_frame`
(handlers/seat/pointer.rs): logical pointer position `(x, y)` against a
window of logical size `(width, height)` with resize border `border`.
Positions and the border are `f64` in the source and are modelled as `ℚ`. -/
def edgeHitTest (width height border x y : ℚ) : Option ResizeEdge :=
  let left_edge : Bool := decide (x < border)
  let top_edge : Bool := decide (y < border)
  let right_edge : Bool := decide (x > width - border)
  let bottom_edge : Bool := decide (y > height - border)
  if left_edge && top_edge then some .TopLeft
  else if left_edge && bottom_edge then some .BottomLeft
  else if right_edge && top_edge then some .TopRight
  else if right_edge && bottom_edge then some .BottomRight
  else if left_edge then some .Left
  else if right_edge then some .Right
  else if top_edge then some .Top
  else if bottom_edge then some .Bottom
  else none

/-- Predicate over the hit-test result: a corner edge was reported. -/
def isCornerEdge : Option ResizeEdge → Prop
  | some .TopLeft | some .BottomLeft | some .TopRight | some .BottomRight =>
      True
  | _ => False

/-- Predicate over the hit-test result: a non-corner (single) edge was
reported. -/
def isSingleEdge : Option ResizeEdge → Prop
  | some .Top | some .Bottom | some .Left | some .Right => True
  | _ => False

/-- C6: the hit test reports a corner iff both the horizontal coordinate is
within `border` of the left or right edge and the vertical coordinate is
within `border` of the top or bottom edge (corners taking precedence); it
reports a single edge iff exactly one axis is within `border` of its edge;
and it reports no resize region when both coordinates are at least `border`
away from every edge. -/
theorem c6_resize_edge_classification (width height border x y : ℚ) :
    (isCornerEdge (edgeHitTest width height border x y) ↔
      ((x < border ∨ x > width - border) ∧
        (y < border ∨ y > height - border)))
    ∧ (isSingleEdge (edgeHitTest width height border x y) ↔
      (((x < border ∨ x > width - border) ∧
          ¬(y < border ∨ y > height - border)) ∨
        (¬(x < border ∨ x > width - border) ∧
          (y < border ∨ y > height - border))))
    ∧ ((border ≤ x ∧ x ≤ width - border ∧ border ≤ y ∧ y ≤ height - border) →
      edgeHitTest width height border x y = none) := by
  by_cases hl : x < border <;>
    by_cases ht : y < border <;>
      by_cases hr : x > width - border <;>
        by_cases hb : y > height - border <;>
          simp [edgeHitTest, hl, ht, hr, hb, isCornerEdge, isSingleEdge]

/-- C6 witness: at a window of size (800, 600) with border 8, the point
(4, 4) is a corner hit, the point (4, 300) is a single-edge hit, and the
point (100, 100) is in the interior. -/
theorem c6_witness :
    isCornerEdge (edgeHitTest 800 600 8 4 4) ∧
    isSingleEdge (edgeHitTest 800 600 8 4 300) ∧
    edgeHitTest 800 600 8 100 100 = none :=
  ⟨(c6_resize_edge_classification 800 600 8 4 4).1.mpr
      (by norm_num),
   (c6_resize_edge_classification 800 600 8 4 300).2.1.mpr
      (by norm_num),
   (c6_resize_edge_classification 800 600 8 100 100).2.2
      (by norm_num)⟩

/-- Stable UI-assigned surface id (the numeric value of `core::window::Id`). -/
abbrev SurfaceId := Nat

/-- Identity of a Wayland protocol object (`wl_surface`, `wl_pointer`, ...):
protocol handles are modelled by the identity of their object. -/
abbrev ObjectId := Nat

/-- Margin of a layer surface (`IcedMargin`). -/
structure IcedMargin where
  top : Int
  right : Int
  bottom : Int
  left : Int
deriving DecidableEq, Repr

/-- Keyboard-interactivity mode of a layer surface
(`zwlr_layer_surface_v1`). -/
inductive KeyboardInteractivity where
  | NoInteractivity
  | Exclusive
  | OnDemand
deriving DecidableEq, Repr

/-- Layer of a layer surface (`zwlr_layer_shell_v1`). -/
inductive WlrLayer where
  | Background
  | Bottom
  | Top
  | Overlay
deriving DecidableEq, Repr

/-- Anchor bitset of a layer surface over the four screen edges. -/
structure Anchor where
  top : Bool
  bottom : Bool
  left : Bool
  right : Bool
deriving DecidableEq, Repr

/-- Cursor icons relevant to the pointer handler: the eight resize arrows,
the default icon, and any other application-requested icon. -/
inductive CursorIcon where
  | NResize
  | SResize
  | WResize
  | EResize
  | NwResize
  | SwResize
  | NeResize
  | SeResize
  | DefaultIcon
  | Other (code : Nat)
deriving DecidableEq, Repr

/-- The shared `Common` block of event_loop/state.rs: fractional scale,
focus, IME caret, logical size.  The `Arc<Mutex<..>>` sharing is modelled by
storing the block inline; the dispatcher is its sole writer. -/
structure Common where
  fractional_scale : Option ℚ
  has_focus : Bool
  ime_pos : Nat × Nat
  ime_size : Nat × Nat
  size : Nat × Nat
deriving DecidableEq, Repr

/-- The `Default` impl of `Common`: size defaults to (1, 1). -/
def Common.default : Common :=
  { fractional_scale := none
    has_focus := false
    ime_pos := (0, 0)
    ime_size := (0, 0)
    size := (1, 1) }

/-- The `From<LogicalSize<u32>>` impl of `Common`. -/
def Common.ofSize (size : Nat × Nat) : Common :=
  { Common.default with size := size }

/-- A window configure received from the compositor; only its presence
matters to the modelled operations, so its payload is omitted. -/
structure WindowConfigure where
deriving DecidableEq, Repr

/-- A layer-surface configure; `new_size` is the size (width, height) the
compositor assigned. -/
structure LayerSurfaceConfigure where
  new_size : Nat × Nat
deriving DecidableEq, Repr

/-- Wayland protocol requests issued by the dispatcher, recorded as a trace.
`set_buffer_scale` carries the integer scale (the `as u32`/`as i32` cast of
the source is modelled as the floor of the rational scale). -/
inductive Request where
  | set_window_geometry (surface : ObjectId) (x y w h : Int)
  | viewport_set_destination (surface : ObjectId) (w h : Int)
  | set_buffer_scale (surface : ObjectId) (scale : Int)
  | layer_set_size (surface : ObjectId) (w h : Nat)
  | layer_set_anchor (surface : ObjectId) (anchor : Anchor)
  | layer_set_exclusive_zone (surface : ObjectId) (zone : Int)
  | layer_set_margin (surface : ObjectId) (margin : IcedMargin)
  | layer_set_keyboard_interactivity (surface : ObjectId)
      (mode : KeyboardInteractivity)
  | layer_set_layer (surface : ObjectId) (layer : WlrLayer)
  | layer_set_input_region_empty (surface : ObjectId)
  | xdg_set_title (surface : ObjectId) (title : String)
  | xdg_set_app_id (surface : ObjectId) (app_id : String)
  | xdg_set_min_size (surface : ObjectId) (size : Option (Nat × Nat))
  | xdg_set_max_size (surface : ObjectId) (size : Option (Nat × Nat))
  | toplevel_move (surface : ObjectId) (serial : Nat)
  | toplevel_resize (surface : ObjectId) (serial : Nat) (edge : ResizeEdge)
  | toplevel_destroy (surface : ObjectId)
  | positioner_set_size (w h : Int)
  | popup_reposition (surface : ObjectId) (token : Nat)
  | set_cursor (icon : CursorIcon)
  | commit (surface : ObjectId)
deriving DecidableEq, Repr

/-- Window record (`SctkWindow` of event_loop/state.rs).  Protocol handles
are replaced by the `wl_surface` object identity; presence of the optional
fractional-scale and viewport objects by booleans; `NonZeroU32` sizes by
`Nat` values kept positive by every constructor in the source.  The
vestigial `_pending_requests` field (never read) is omitted. -/
structure SctkWindow where
  id : SurfaceId
  surface : ObjectId
  scale_factor : Option ℚ
  requested_size : Option (Nat × Nat)
  current_size : Nat × Nat
  last_configure : Option WindowConfigure
  resizable : Option ℚ
  wp_fractional_scale : Bool
  wp_viewport : Bool
deriving DecidableEq, Repr

/-- The method `SctkWindow::update_size`: substitute current dimensions for
absent ones, no-op when the size is unchanged, otherwise set the window
geometry, record the size, and update the viewport destination if a
viewport is attached. -/
def SctkWindow.update_size (w : SctkWindow) (width height : Option Nat) :
    SctkWindow × List Request :=
  let width := width.getD w.current_size.1
  let height := height.getD w.current_size.2
  if w.current_size = (width, height) then (w, [])
  else
    ({ w with current_size := (width, height) },
     [Request.set_window_geometry w.surface 0 0 width height] ++
       (if w.wp_viewport then
         [Request.viewport_set_destination w.surface width height]
       else []))

/-- The method `SctkWindow::set_size`: record the requested size, then
`update_size`. -/
def SctkWindow.set_size (w : SctkWindow) (lw lh : Nat) :
    SctkWindow × List Request :=
  SctkWindow.update_size { w with requested_size := some (lw, lh) }
    (some lw) (some lh)

/-- Layer-surface record (`SctkLayerSurface` of event_loop/state.rs), with
the same handle conventions as `SctkWindow`. -/
structure SctkLayerSurface where
  id : SurfaceId
  surface : ObjectId
  requested_size : Option Nat × Option Nat
  current_size : Option (Nat × Nat)
  layer : WlrLayer
  anchor : Anchor
  keyboard_interactivity : KeyboardInteractivity
  margin : IcedMargin
  exclusive_zone : Int
  last_configure : Option LayerSurfaceConfigure
  wp_fractional_scale : Bool
  wp_viewport : Bool
  common : Common
deriving DecidableEq, Repr

/-- The method `SctkLayerSurface::set_size`: record the requested size and
issue `zwlr_layer_surface_v1.set_size` with zeros substituted for absent
dimensions. -/
def SctkLayerSurface.set_size (l : SctkLayerSurface) (w h : Option Nat) :
    SctkLayerSurface × List Request :=
  ({ l with requested_size := (w, h) },
   [Request.layer_set_size l.surface (w.getD 0) (h.getD 0)])

/-- Parent reference of a popup (`SctkSurface` of event_loop/state.rs): the
`wl_surface` of a layer surface, a window, or another popup. -/
inductive SctkSurfaceKind where
  | layerSurface (surface : ObjectId)
  | window (surface : ObjectId)
  | popup (surface : ObjectId)
deriving DecidableEq, Repr

/-- The `wl_surface` carried by a parent reference. -/
def SctkSurfaceKind.wl_surface : SctkSurfaceKind → ObjectId
  | .layerSurface s => s
  | .window s => s
  | .popup s => s

/-- Popup record (`SctkPopup` with its `SctkPopupData`). -/
structure SctkPopup where
  id : SurfaceId
  surface : ObjectId
  parent : SctkSurfaceKind
  toplevel : ObjectId
  last_configure : Option Unit
  wp_fractional_scale : Bool
  wp_viewport : Bool
  common : Common
deriving DecidableEq, Repr

/-- Lock-surface record (`SctkLockSurface`). -/
structure SctkLockSurface where
  id : SurfaceId
  surface : ObjectId
  last_configure : Option Unit
  wp_fractional_scale : Bool
  wp_viewport : Bool
  common : Common
deriving DecidableEq, Repr

/-- Seat record (`SctkSeat`): pointer device identity, focus surfaces and
last-press serials, application-requested and currently-set cursor icons.
The keyboard/touch devices and modifier state are not needed by the
modelled operations. -/
structure SctkSeat where
  ptr : Option ObjectId
  ptr_focus : Option ObjectId
  last_ptr_press : Option (Nat × Nat × Nat)
  kbd_focus : Option ObjectId
  last_kbd_press : Option Nat
  icon : Option CursorIcon
  active_icon : Option CursorIcon
deriving DecidableEq, Repr

/-- The method `SctkSeat::set_cursor`: when a pointer exists, set the cursor
and record the icon as currently active. -/
def SctkSeat.set_cursor (s : SctkSeat) (icon : CursorIcon) :
    SctkSeat × List Request :=
  match s.ptr with
  | some _ => ({ s with active_icon := some icon }, [Request.set_cursor icon])
  | none => (s, [])

/-- Layer-surface event variants sent to the UI (subset relevant to the
modelled actions). -/
inductive LayerSurfaceEventVariant where
  | Created (surface : ObjectId) (id : SurfaceId)
  | Configure (configure : LayerSurfaceConfigure) (surface : ObjectId)
      (first : Bool)
  | Done
deriving DecidableEq, Repr

/-- Window event variants sent to the UI (subset relevant to the modelled
actions). -/
inductive WindowEventVariant where
  | Size (size : Nat × Nat) (surface : ObjectId) (first : Bool)
deriving DecidableEq, Repr

/-- Winit window events produced by the pointer translator and the wake-up
tail. -/
inductive WinitWindowEvent where
  | CursorEntered
  | CursorLeft
  | CursorMoved (x y : ℚ)
  | MouseInput (pressed : Bool) (button : Nat)
  | MouseWheelLine (dx dy : Int) (ended : Bool)
  | MouseWheelPixel (dx dy : ℚ) (ended : Bool)
  | RedrawRequested
deriving DecidableEq, Repr

/-- Events of the uniform surface-event stream (`SctkEvent`, subset
relevant to the modelled operations). -/
inductive SctkEvent where
  | SurfaceScaleFactorChanged (scale : ℚ) (surface : ObjectId)
      (id : SurfaceId)
  | LayerSurfaceEvent (variant : LayerSurfaceEventVariant) (id : ObjectId)
  | WindowEvent (variant : WindowEventVariant) (id : ObjectId)
  | PopupDone (surface : ObjectId)
  | PointerMotion (surface : ObjectId) (x y : ℚ) (time : Nat)
  | Winit (windowId : ObjectId) (event : WinitWindowEvent)
deriving DecidableEq, Repr

/-- Control messages the dispatcher thread sends to the UI thread. -/
inductive Control where
  | AboutToWait
  | PlatformSpecific (event : SctkEvent)
  | Winit (windowId : ObjectId) (event : WinitWindowEvent)
deriving DecidableEq, Repr

/-- Dispatcher state (`SctkState`), restricted to the fields the modelled
operations read or write.  The `to_commit` HashMap is modelled as an
association list with insert-or-replace semantics; `requested_frame` as a
list of object ids. -/
structure SctkState where
  seats : List SctkSeat
  windows : List SctkWindow
  layer_surfaces : List SctkLayerSurface
  popups : List SctkPopup
  lock_surfaces : List SctkLockSurface
  requested_frame : List ObjectId
  sctk_events : List SctkEvent
  token_ctr : Nat
  to_commit : List (SurfaceId × ObjectId)
deriving DecidableEq, Repr

/-- Mutation of the first element satisfying a predicate, the effect of an
`iter_mut().find(..)` followed by writes through the reference. -/
def updateFirst (p : α → Bool) (f : α → α) : List α → List α
  | [] => []
  | x :: xs => if p x then f x :: xs else x :: updateFirst p f xs

/-- Insert-or-replace into the association list modelling
`HashMap::insert`. -/
def insertKV (k : SurfaceId) (v : ObjectId) (m : List (SurfaceId × ObjectId)) :
    List (SurfaceId × ObjectId) :=
  if m.any (fun kv => kv.1 == k) then
    m.map (fun kv => if kv.1 == k then (k, v) else kv)
  else m ++ [(k, v)]

/-- Extraction of the first element satisfying a predicate together with the
remaining list: the effect of `iter().position(p)` followed by
`Vec::remove` at that index. -/
def extractFirst (p : α → Bool) : List α → Option (α × List α)
  | [] => none
  | x :: xs =>
    if p x then some (x, xs)
    else
      match extractFirst p xs with
      | none => none
      | some (y, ys) => some (y, x :: ys)

theorem extractFirst_length {p : α → Bool} {l rest : List α} {y : α}
    (h : extractFirst p l = some (y, rest)) :
    rest.length + 1 = l.length := by
  induction l generalizing rest y with
  | nil => simp [extractFirst] at h
  | cons x xs ih =>
      by_cases hx : p x
      · simp [extractFirst, hx] at h
        simp [← h.2]
      · simp only [extractFirst, hx, if_false, Bool.false_eq_true] at h
        cases hrec : extractFirst p xs with
        | none => rw [hrec] at h; simp at h
        | some v =>
            rw [hrec] at h
            simp at h
            obtain ⟨h1, h2⟩ := h
            have hlen : v.2.length + 1 = xs.length := by
              have hv : extractFirst p xs = some (v.1, v.2) := by
                rw [hrec]
              exact ih hv
            subst h1
            rw [← h2]
            simp
            omega

/-- The destruction walk of `popup::Action::Destroy`
(event_loop/state.rs): while the popup last pushed onto `to_destroy` has a
popup parent, that parent is located in the registry by its `wl_surface`,
removed (`position(..).unwrap()` panics when it is absent), and pushed.
Walks stop at a popup whose parent is a window or layer surface. -/
def destroyChase (popups : List SctkPopup) (toDestroy : List SctkPopup)
    (lastPushed : SctkPopup) :
    Except String (List SctkPopup × List SctkPopup) :=
  match lastPushed.parent with
  | .layerSurface _ => .ok (popups, toDestroy)
  | .window _ => .ok (popups, toDestroy)
  | .popup parentSurface =>
    match h : extractFirst (fun q => q.surface == parentSurface) popups with
    | none => .error "called Option::unwrap() on a None value"
    | some (q, rest) => destroyChase rest (toDestroy ++ [q]) q
termination_by popups.length
decreasing_by
  have := extractFirst_length h
  omega

/-- The `popup::Action::Destroy` arm of `SctkState::handle_action`: remove
the target popup (the `None` arm is a `panic!`), run the destruction walk,
then drop the collected popups in the order `to_destroy.into_iter().rev()`
visits them.  Returns the remaining registry, the drop order, and the
`Done` events sent to the UI — an empty list, because the event-sending
loop body is commented out in the source. -/
def popupDestroy (popups : List SctkPopup) (id : SurfaceId) :
    Except String (List SctkPopup × List SctkPopup × List SctkEvent) :=
  match extractFirst (fun s => s.id == id) popups with
  | none => .error "TODO return error..."
  | some (sctk_popup, rest) =>
    match destroyChase rest [sctk_popup] sctk_popup with
    | .error e => .error e
    | .ok (remaining, toDestroy) => .ok (remaining, toDestroy.reverse, [])

/-- A popup parented to window 10. -/
def c1Popup1 : SctkPopup :=
  { id := 1
    surface := 11
    parent := .window 10
    toplevel := 10
    last_configure := some ()
    wp_fractional_scale := false
    wp_viewport := false
    common := Common.default }

/-- A popup parented to popup `c1Popup1` (so it is `c1Popup1`'s descendant). -/
def c1Popup2 : SctkPopup :=
  { c1Popup1 with id := 2, surface := 12, parent := .popup 11 }

/-- C1 evaluated at the failing input: with the registry holding popup 1
(parented to a window) and its child popup 2, destroying popup 1 removes
only popup 1 — its descendant popup 2 stays registered — and produces no
`Done` events at all; and destroying popup 2 also removes its ancestor
popup 1 (which is outside popup 2's subtree), dropping the parent before
the child.  The walk follows parent links upward instead of descending to
descendants, and the `Done` notification loop is commented out. -/
theorem c1_popup_destroy_failing_input :
    popupDestroy [c1Popup1, c1Popup2] 1 =
      .ok ([c1Popup2], [c1Popup1], []) ∧
    popupDestroy [c1Popup1, c1Popup2] 2 =
      .ok ([], [c1Popup1, c1Popup2], []) := by
  constructor
  · simp [popupDestroy, extractFirst, c1Popup1, c1Popup2, destroyChase]
  · simp [popupDestroy, extractFirst, c1Popup1, c1Popup2, destroyChase]

/-- The expression `NonZeroU32::new(n).unwrap_or(NonZeroU32::new(1).unwrap())`
used by the window `Size` action. -/
def nonZeroOr1 (n : Nat) : Nat := if n = 0 then 1 else n

/-- The method `SctkPopup::set_size`: update the xdg_surface geometry and
the positioner, then reposition with the given token. -/
def SctkPopup.set_size (p : SctkPopup) (w h : Nat) (token : Nat) :
    List Request :=
  [Request.set_window_geometry p.surface 0 0 w h,
   Request.positioner_set_size w h,
   Request.popup_reposition p.surface token]

/-- Layer-surface actions (`layer_surface::Action`, creation omitted — it is
modelled by `getLayerSurfaceRecord`). -/
inductive LayerSurfaceAction where
  | Size (id : SurfaceId) (width height : Option Nat)
  | Destroy (id : SurfaceId)
  | SetAnchor (id : SurfaceId) (anchor : Anchor)
  | SetExclusiveZone (id : SurfaceId) (zone : Int)
  | SetMargin (id : SurfaceId) (margin : IcedMargin)
  | SetKeyboardInteractivity (id : SurfaceId) (mode : KeyboardInteractivity)
  | SetLayer (id : SurfaceId) (layer : WlrLayer)
deriving DecidableEq, Repr

/-- Window actions (`window::Action`, creation omitted: its arm in the
source is an unconditional `panic!("TODO remove this action")`). -/
inductive WindowAction where
  | Size (id : SurfaceId) (width height : Nat)
  | MinSize (id : SurfaceId) (size : Option (Nat × Nat))
  | MaxSize (id : SurfaceId) (size : Option (Nat × Nat))
  | Title (id : SurfaceId) (title : String)
  | AppId (id : SurfaceId) (app_id : String)
  | InteractiveMove (id : SurfaceId)
  | InteractiveResize (id : SurfaceId) (edge : ResizeEdge)
  | Destroy (id : SurfaceId)
deriving DecidableEq, Repr

/-- Popup actions (`popup::Action`, creation omitted). -/
inductive PopupAction where
  | Destroy (id : SurfaceId)
  | Size (id : SurfaceId) (width height : Nat)
  | Grab (id : SurfaceId)
deriving DecidableEq, Repr

/-- Session-lock actions relevant to the surface registries. -/
inductive SessionLockAction where
  | DestroyLockSurface (id : SurfaceId)
deriving DecidableEq, Repr

/-- Typed actions consumed from the UI thread (`wayland::Action`). -/
inductive Action where
  | LayerSurface (a : LayerSurfaceAction)
  | Window (a : WindowAction)
  | Popup (a : PopupAction)
  | SessionLock (a : SessionLockAction)
deriving DecidableEq, Repr

/-- The action executor `SctkState::handle_action` (event_loop/state.rs):
returns the new state, the events sent to the UI via `send_event` during
handling, and the protocol requests issued, or the message of the panic
the handling runs into. -/
def handleAction (st : SctkState) (action : Action) :
    Except String (SctkState × List SctkEvent × List Request) :=
  match action with
  | .LayerSurface (.Size id width height) =>
    match st.layer_surfaces.find? (fun l => l.id == id) with
    | none => .ok (st, [], [])
    | some l =>
      let reqs := (l.set_size width height).2
      let evs :=
        match l.last_configure with
        | some prev =>
          [SctkEvent.LayerSurfaceEvent
            (.Configure
              { prev with
                new_size :=
                  (width.getD prev.new_size.1, width.getD prev.new_size.2) }
              l.surface false)
            l.surface]
        | none => []
      .ok
        ({ st with
            layer_surfaces :=
              updateFirst (fun l2 => l2.id == id)
                (fun l2 => (l2.set_size width height).1) st.layer_surfaces },
          evs, reqs)
  | .LayerSurface (.Destroy id) =>
    match extractFirst (fun l => l.id == id) st.layer_surfaces with
    | none => .ok (st, [], [])
    | some (l, rest) =>
      .ok ({ st with layer_surfaces := rest },
        [SctkEvent.LayerSurfaceEvent .Done l.surface], [])
  | .LayerSurface (.SetAnchor id anchor) =>
    match st.layer_surfaces.find? (fun l => l.id == id) with
    | none => .ok (st, [], [])
    | some l =>
      .ok
        ({ st with
            layer_surfaces :=
              updateFirst (fun l2 => l2.id == id)
                (fun l2 => { l2 with anchor := anchor }) st.layer_surfaces
            to_commit := insertKV id l.surface st.to_commit },
          [], [Request.layer_set_anchor l.surface anchor])
  | .LayerSurface (.SetExclusiveZone id zone) =>
    match st.layer_surfaces.find? (fun l => l.id == id) with
    | none => .ok (st, [], [])
    | some l =>
      .ok
        ({ st with
            layer_surfaces :=
              updateFirst (fun l2 => l2.id == id)
                (fun l2 => { l2 with exclusive_zone := zone })
                st.layer_surfaces
            to_commit := insertKV id l.surface st.to_commit },
          [], [Request.layer_set_exclusive_zone l.surface zone])
  | .LayerSurface (.SetMargin id margin) =>
    match st.layer_surfaces.find? (fun l => l.id == id) with
    | none => .ok (st, [], [])
    | some l =>
      .ok
        ({ st with
            layer_surfaces :=
              updateFirst (fun l2 => l2.id == id)
                (fun l2 => { l2 with margin := margin }) st.layer_surfaces
            to_commit := insertKV id l.surface st.to_commit },
          [], [Request.layer_set_margin l.surface margin])
  | .LayerSurface (.SetKeyboardInteractivity id mode) =>
    match st.layer_surfaces.find? (fun l => l.id == id) with
    | none => .ok (st, [], [])
    | some l =>
      .ok
        ({ st with
            layer_surfaces :=
              updateFirst (fun l2 => l2.id == id)
                (fun l2 => { l2 with keyboard_interactivity := mode })
                st.layer_surfaces
            to_commit := insertKV id l.surface st.to_commit },
          [], [Request.layer_set_keyboard_interactivity l.surface mode])
  | .LayerSurface (.SetLayer id layer) =>
    match st.layer_surfaces.find? (fun l => l.id == id) with
    | none => .ok (st, [], [])
    | some l =>
      .ok
        ({ st with
            layer_surfaces :=
              updateFirst (fun l2 => l2.id == id)
                (fun l2 => { l2 with layer := layer }) st.layer_surfaces
            to_commit := insertKV id l.surface st.to_commit },
          [], [Request.layer_set_layer l.surface layer])
  | .Window (.Size id width height) =>
    match st.windows.find? (fun w => w.id == id) with
    | none => .ok (st, [], [])
    | some w =>
      let r := w.set_size (nonZeroOr1 width) (nonZeroOr1 height)
      let evs :=
        if r.1.last_configure.isSome then
          [SctkEvent.WindowEvent
            (.Size r.1.current_size r.1.surface false) r.1.surface]
        else []
      .ok
        ({ st with
            windows :=
              updateFirst (fun w2 => w2.id == id)
                (fun w2 =>
                  (w2.set_size (nonZeroOr1 width) (nonZeroOr1 height)).1)
                st.windows },
          evs, r.2)
  | .Window (.MinSize id size) =>
    match st.windows.find? (fun w => w.id == id) with
    | none => .ok (st, [], [])
    | some w =>
      .ok ({ st with to_commit := insertKV id w.surface st.to_commit },
        [], [Request.xdg_set_min_size w.surface size])
  | .Window (.MaxSize id size) =>
    match st.windows.find? (fun w => w.id == id) with
    | none => .ok (st, [], [])
    | some w =>
      .ok ({ st with to_commit := insertKV id w.surface st.to_commit },
        [], [Request.xdg_set_max_size w.surface size])
  | .Window (.Title id title) =>
    match st.windows.find? (fun w => w.id == id) with
    | none => .ok (st, [], [])
    | some w =>
      .ok ({ st with to_commit := insertKV id w.surface st.to_commit },
        [], [Request.xdg_set_title w.surface title])
  | .Window (.AppId id app_id) =>
    match st.windows.find? (fun w => w.id == id) with
    | none => .ok (st, [], [])
    | some w =>
      .ok ({ st with to_commit := insertKV id w.surface st.to_commit },
        [], [Request.xdg_set_app_id w.surface app_id])
  | .Window (.InteractiveMove id) =>
    match st.windows.find? (fun w => w.id == id),
        st.seats.head?.bind (fun s => s.last_ptr_press.map (fun p => p.2.2))
        with
    | some w, some serial =>
      .ok ({ st with to_commit := insertKV id w.surface st.to_commit },
        [], [Request.toplevel_move w.surface serial])
    | _, _ => .ok (st, [], [])
  | .Window (.InteractiveResize id edge) =>
    match st.windows.find? (fun w => w.id == id),
        st.seats.head?.bind (fun s => s.last_ptr_press.map (fun p => p.2.2))
        with
    | some w, some serial =>
      .ok ({ st with to_commit := insertKV id w.surface st.to_commit },
        [], [Request.toplevel_resize w.surface serial edge])
    | _, _ => .ok (st, [], [])
  | .Window (.Destroy id) =>
    match extractFirst (fun w => w.id == id) st.windows with
    | none => .ok (st, [], [])
    | some (w, rest) =>
      .ok ({ st with windows := rest },
        [], [Request.toplevel_destroy w.surface])
  | .Popup (.Destroy id) =>
    match popupDestroy st.popups id with
    | .error e => .error e
    | .ok (remaining, _dropOrder, evs) =>
      .ok ({ st with popups := remaining }, evs, [])
  | .Popup (.Size id width height) =>
    match st.popups.find? (fun p => p.id == id) with
    | none => .ok (st, [], [])
    | some p =>
      .ok ({ st with token_ctr := st.token_ctr + 1 },
        [], p.set_size width height (st.token_ctr + 1))
  | .Popup (.Grab _) => .ok (st, [], [])
  | .SessionLock (.DestroyLockSurface id) =>
    match extractFirst (fun s => s.id == id) st.lock_surfaces with
    | none => .ok (st, [], [])
    | some (_, rest) => .ok ({ st with lock_surfaces := rest }, [], [])

/-- The tail of every dispatcher wake-up (the body of the `loop` in
`SctkEventLoop::new`, event_loop/mod.rs, after `event_loop.dispatch`): when
the event sink is non-empty it is drained into control messages for the UI
thread, then a `RedrawRequested` is sent for every layer, popup and lock
surface not in the requested-frame set.  The loop performs no Wayland
requests, and it contains no code that reads or drains `to_commit`. -/
def endOfWakeUp (st : SctkState) : SctkState × List Control :=
  if st.sctk_events.isEmpty then (st, [])
  else
    let msgs := st.sctk_events.map fun e =>
      match e with
      | SctkEvent.Winit id ev => Control.Winit id ev
      | e => Control.PlatformSpecific e
    let surfaces :=
      st.layer_surfaces.map (fun s => s.surface) ++
        st.popups.map (fun s => s.surface) ++
        st.lock_surfaces.map (fun s => s.surface)
    let redraws :=
      (surfaces.filter fun s => !(st.requested_frame.contains s)).map fun s =>
        Control.Winit s WinitWindowEvent.RedrawRequested
    ({ st with sctk_events := [] }, msgs ++ redraws)

/-- Sequential execution of the actions that arrived during one wake-up,
collecting sent events and issued requests in order. -/
def runActions (st : SctkState) :
    List Action → Except String (SctkState × List SctkEvent × List Request)
  | [] => .ok (st, [], [])
  | a :: rest =>
    match handleAction st a with
    | .error e => .error e
    | .ok (st1, evs, reqs) =>
      match runActions st1 rest with
      | .error e => .error e
      | .ok (st2, evs2, reqs2) => .ok (st2, evs ++ evs2, reqs ++ reqs2)

/-- One dispatcher wake-up in which the given actions arrive: execute them,
then run the wake-up tail.  Returns the final state, the events sent by
action handling, the protocol requests issued during the whole wake-up, and
the control messages of the tail. -/
def dispatchWakeUp (st : SctkState) (actions : List Action) :
    Except String (SctkState × List SctkEvent × List Request × List Control) :=
  match runActions st actions with
  | .error e => .error e
  | .ok (st1, evs, reqs) =>
    let r := endOfWakeUp st1
    .ok (r.1, evs, reqs, r.2)

/-- Recognizer for `wl_surface.commit` requests in the trace. -/
def isCommitReq : Request → Bool
  | Request.commit _ => true
  | _ => false

/-- A registered window with id 3 and surface 30 that has already been
configured. -/
def c2Window : SctkWindow :=
  { id := 3
    surface := 30
    scale_factor := none
    requested_size := none
    current_size := (800, 600)
    last_configure := some {}
    resizable := none
    wp_fractional_scale := false
    wp_viewport := false }

/-- Dispatcher state holding only `c2Window`. -/
def c2State : SctkState :=
  { seats := []
    windows := [c2Window]
    layer_surfaces := []
    popups := []
    lock_surfaces := []
    requested_frame := []
    sctk_events := []
    token_ctr := 0
    to_commit := [] }

/-- Three metadata mutations on window 3 arriving within one wake-up
(scenario S4 of the specification). -/
def c2Actions : List Action :=
  [.Window (.Title 3 "x"),
   .Window (.AppId 3 "id"),
   .Window (.MinSize 3 none)]

/-- C2 evaluated at the failing input: after a wake-up in which three
mutations were applied to window 3, the surface is still registered in
`to_commit` (the map is never drained) and the request trace of the whole
wake-up contains zero commits — not the exactly one commit the claim
requires. -/
theorem c2_commit_never_drained_failing_input :
    dispatchWakeUp c2State c2Actions =
      .ok ({ c2State with to_commit := [(3, 30)] }, [],
        [Request.xdg_set_title 30 "x", Request.xdg_set_app_id 30 "id",
         Request.xdg_set_min_size 30 none], []) ∧
    (List.countP isCommitReq
      [Request.xdg_set_title 30 "x", Request.xdg_set_app_id 30 "id",
       Request.xdg_set_min_size 30 none]) = 0 := by
  constructor
  · rfl
  · rfl

/-- A layer surface with id 7 and surface 70 that has already received a
real configure of size (5, 5). -/
def c3Layer : SctkLayerSurface :=
  { id := 7
    surface := 70
    requested_size := (some 5, some 5)
    current_size := some (5, 5)
    layer := .Top
    anchor := { top := false, bottom := false, left := false, right := false }
    keyboard_interactivity := .NoInteractivity
    margin := { top := 0, right := 0, bottom := 0, left := 0 }
    exclusive_zone := 0
    last_configure := some { new_size := (5, 5) }
    wp_fractional_scale := false
    wp_viewport := false
    common := Common.default }

/-- Dispatcher state holding only `c3Layer`. -/
def c3State : SctkState :=
  { seats := []
    windows := []
    layer_surfaces := [c3Layer]
    popups := []
    lock_surfaces := []
    requested_frame := []
    sctk_events := []
    token_ctr := 0
    to_commit := [] }

/-- C3 evaluated at the failing input: a layer-surface
`Size { width = 2, height = 3 }` action on the configured layer surface 7
synthesizes a Configure whose new size is (2, 2) — the requested width is
used for both dimensions, the height is ignored — and registers nothing in
the pending-commit set (`to_commit` stays empty); a window
`Size { width = 640, height = 480 }` action on the configured window 3
likewise registers nothing in the pending-commit set. -/
theorem c3_layer_size_failing_input :
    (handleAction c3State (.LayerSurface (.Size 7 (some 2) (some 3))) =
      .ok
        ({ c3State with
            layer_surfaces :=
              [{ c3Layer with requested_size := (some 2, some 3) }] },
          [SctkEvent.LayerSurfaceEvent
            (.Configure { new_size := (2, 2) } 70 false) 70],
          [Request.layer_set_size 70 2 3]) ∧
    ({ c3State with
        layer_surfaces :=
          [{ c3Layer with requested_size := (some 2, some 3) }] } :
      SctkState).to_commit = []) ∧
    (handleAction c2State (.Window (.Size 3 640 480)) =
      .ok
        ({ c2State with
            windows :=
              [{ c2Window with
                  requested_size := some (640, 480),
                  current_size := (640, 480) }] },
          [SctkEvent.WindowEvent (.Size (640, 480) 30 false) 30],
          [Request.set_window_geometry 30 0 0 640 480]) ∧
    ({ c2State with
        windows :=
          [{ c2Window with
              requested_size := some (640, 480),
              current_size := (640, 480) }] } : SctkState).to_commit = []) := by
  exact ⟨⟨rfl, rfl⟩, ⟨rfl, rfl⟩⟩

/-- Dispatcher state for C4: one window, one layer surface, one popup, one
lock surface — none of them with id 99. -/
def c4State : SctkState :=
  { seats := []
    windows := [c2Window]
    layer_surfaces := [c3Layer]
    popups := [c1Popup1]
    lock_surfaces := []
    requested_frame := []
    sctk_events := []
    token_ctr := 0
    to_commit := [] }

/-- C4 evaluated at the failing input: a popup `Destroy` action naming the
unregistered id 99 panics (the `None` arm of the lookup is
`panic!("TODO return error...")`), while the same unknown id is ignored by
the window, layer-surface and lock-surface actions, which leave the state
unchanged and continue normally. -/
theorem c4_unknown_id_failing_input :
    handleAction c4State (.Popup (.Destroy 99)) =
      .error "TODO return error..." ∧
    handleAction c4State (.Window (.Size 99 10 10)) = .ok (c4State, [], []) ∧
    handleAction c4State (.LayerSurface (.SetAnchor 99
      { top := true, bottom := false, left := false, right := false })) =
      .ok (c4State, [], []) ∧
    handleAction c4State (.SessionLock (.DestroyLockSurface 99)) =
      .ok (c4State, [], []) := by
  refine ⟨?_, rfl, rfl, rfl⟩
  simp [handleAction, c4State, popupDestroy, extractFirst, c1Popup1]

/-- The final step of `SctkState::scale_factor_changed`: when a record was
found, push a `SurfaceScaleFactorChanged` event into the event sink. -/
def scaleFinish (st : SctkState) (surface : ObjectId) (scale : ℚ)
    (id : Option SurfaceId) (reqs : List Request) : SctkState × List Request :=
  match id with
  | some i =>
    ({ st with
        sctk_events :=
          st.sctk_events ++
            [SctkEvent.SurfaceScaleFactorChanged scale surface i] }, reqs)
  | none => (st, reqs)

/-- The lock-surface branch of `scale_factor_changed`: on a legacy event
for a surface with a bound fractional-scale object, return from the whole
function; otherwise update the shared Common block and, for legacy events,
set the buffer scale. -/
def scaleStepLock (st : SctkState) (surface : ObjectId) (scale : ℚ)
    (legacy : Bool) (id : Option SurfaceId) (reqs : List Request) :
    SctkState × List Request :=
  match st.lock_surfaces.find? (fun l => l.surface == surface) with
  | some l =>
    if legacy && l.wp_fractional_scale then (st, reqs)
    else
      scaleFinish
        { st with
            lock_surfaces :=
              updateFirst (fun l2 => l2.surface == surface)
                (fun l2 =>
                  { l2 with
                      common :=
                        { l2.common with fractional_scale := some scale } })
                st.lock_surfaces }
        surface scale (some l.id)
        (reqs ++
          (if legacy then [Request.set_buffer_scale surface ⌊scale⌋] else []))
  | none => scaleFinish st surface scale id reqs

/-- The layer-surface branch of `scale_factor_changed`. -/
def scaleStepLayer (st : SctkState) (surface : ObjectId) (scale : ℚ)
    (legacy : Bool) (id : Option SurfaceId) (reqs : List Request) :
    SctkState × List Request :=
  match st.layer_surfaces.find? (fun l => l.surface == surface) with
  | some l =>
    if legacy && l.wp_fractional_scale then (st, reqs)
    else
      scaleStepLock
        { st with
            layer_surfaces :=
              updateFirst (fun l2 => l2.surface == surface)
                (fun l2 =>
                  { l2 with
                      common :=
                        { l2.common with fractional_scale := some scale } })
                st.layer_surfaces }
        surface scale legacy (some l.id)
        (reqs ++
          (if legacy then [Request.set_buffer_scale surface ⌊scale⌋] else []))
  | none => scaleStepLock st surface scale legacy id reqs

/-- The popup branch of `scale_factor_changed`. -/
def scaleStepPopup (st : SctkState) (surface : ObjectId) (scale : ℚ)
    (legacy : Bool) (id : Option SurfaceId) (reqs : List Request) :
    SctkState × List Request :=
  match st.popups.find? (fun p => p.surface == surface) with
  | some p =>
    if legacy && p.wp_fractional_scale then (st, reqs)
    else
      scaleStepLayer
        { st with
            popups :=
              updateFirst (fun p2 => p2.surface == surface)
                (fun p2 =>
                  { p2 with
                      common :=
                        { p2.common with fractional_scale := some scale } })
                st.popups }
        surface scale legacy (some p.id)
        (reqs ++
          (if legacy then [Request.set_buffer_scale surface ⌊scale⌋] else []))
  | none => scaleStepLayer st surface scale legacy id reqs

/-- The function `SctkState::scale_factor_changed` (event_loop/state.rs):
search windows, then popups, then layer surfaces, then lock surfaces for
the record owning the surface.  In each branch a legacy event for a surface
with a bound fractional-scale object returns from the whole function;
otherwise the recorded scale (the window record's `scale_factor` field,
everyone else's Common block) is updated, a legacy event also sets the
buffer scale, and finally a `SurfaceScaleFactorChanged` event is pushed
when a record was found. -/
def scaleFactorChanged (st : SctkState) (surface : ObjectId) (scale : ℚ)
    (legacy : Bool) : SctkState × List Request :=
  match st.windows.find? (fun w => w.surface == surface) with
  | some w =>
    if legacy && w.wp_fractional_scale then (st, [])
    else
      scaleStepPopup
        { st with
            windows :=
              updateFirst (fun w2 => w2.surface == surface)
                (fun w2 => { w2 with scale_factor := some scale })
                st.windows }
        surface scale legacy (some w.id)
        (if legacy then [Request.set_buffer_scale surface ⌊scale⌋] else [])
  | none => scaleStepPopup st surface scale legacy none []

/-- The recorded scale of the window owning a surface, when one exists. -/
def windowScaleOf (st : SctkState) (surface : ObjectId) :
    Option (Option ℚ) :=
  (st.windows.find? (fun w => w.surface == surface)).map
    fun w => w.scale_factor

/-- The Common-block fractional scale of the popup owning a surface. -/
def popupScaleOf (st : SctkState) (surface : ObjectId) :
    Option (Option ℚ) :=
  (st.popups.find? (fun p => p.surface == surface)).map
    fun p => p.common.fractional_scale

/-- The Common-block fractional scale of the layer surface owning a
surface. -/
def layerScaleOf (st : SctkState) (surface : ObjectId) :
    Option (Option ℚ) :=
  (st.layer_surfaces.find? (fun l => l.surface == surface)).map
    fun l => l.common.fractional_scale

/-- The Common-block fractional scale of the lock surface owning a
surface. -/
def lockScaleOf (st : SctkState) (surface : ObjectId) :
    Option (Option ℚ) :=
  (st.lock_surfaces.find? (fun l => l.surface == surface)).map
    fun l => l.common.fractional_scale

theorem find?_updateFirst_self {p : α → Bool} {f : α → α} {l : List α}
    {x : α} (h : l.find? p = some x) (hf : p (f x) = true) :
    (updateFirst p f l).find? p = some (f x) := by
  induction l with
  | nil => simp [List.find?] at h
  | cons y ys ih =>
      by_cases hy : p y
      · rw [List.find?_cons_of_pos _ hy] at h
        injection h with h
        subst h
        simp [updateFirst, hy, List.find?_cons_of_pos _ hf]
      · rw [List.find?_cons_of_neg _ (by simpa using hy)] at h
        simp [updateFirst, hy,
          List.find?_cons_of_neg _ (show ¬ (p y = true) by simpa using hy),
          ih h]

theorem scaleStepLock_all_frac {st : SctkState} {surface : ObjectId}
    {scale : ℚ}
    (hk : ∀ k ∈ st.lock_surfaces, k.surface = surface →
      k.wp_fractional_scale = true) :
    scaleStepLock st surface scale true none [] = (st, []) := by
  unfold scaleStepLock
  cases hf : st.lock_surfaces.find? (fun l => l.surface == surface) with
  | some l =>
      have hfrac : l.wp_fractional_scale = true :=
        hk l (List.mem_of_find?_eq_some hf)
          (by simpa using List.find?_some hf)
      simp [hfrac]
  | none => simp [scaleFinish]

theorem scaleStepLayer_all_frac {st : SctkState} {surface : ObjectId}
    {scale : ℚ}
    (hl : ∀ l ∈ st.layer_surfaces, l.surface = surface →
      l.wp_fractional_scale = true)
    (hk : ∀ k ∈ st.lock_surfaces, k.surface = surface →
      k.wp_fractional_scale = true) :
    scaleStepLayer st surface scale true none [] = (st, []) := by
  unfold scaleStepLayer
  cases hf : st.layer_surfaces.find? (fun l => l.surface == surface) with
  | some l =>
      have hfrac : l.wp_fractional_scale = true :=
        hl l (List.mem_of_find?_eq_some hf)
          (by simpa using List.find?_some hf)
      simp [hfrac]
  | none => simpa using scaleStepLock_all_frac hk

theorem scaleStepPopup_all_frac {st : SctkState} {surface : ObjectId}
    {scale : ℚ}
    (hp : ∀ p ∈ st.popups, p.surface = surface →
      p.wp_fractional_scale = true)
    (hl : ∀ l ∈ st.layer_surfaces, l.surface = surface →
      l.wp_fractional_scale = true)
    (hk : ∀ k ∈ st.lock_surfaces, k.surface = surface →
      k.wp_fractional_scale = true) :
    scaleStepPopup st surface scale true none [] = (st, []) := by
  unfold scaleStepPopup
  cases hf : st.popups.find? (fun p => p.surface == surface) with
  | some p =>
      have hfrac : p.wp_fractional_scale = true :=
        hp p (List.mem_of_find?_eq_some hf)
          (by simpa using List.find?_some hf)
      simp [hfrac]
  | none => simpa using scaleStepLayer_all_frac hl hk

/-- C7: legacy (integer) scale events are ignored for surfaces with a bound
fractional-scale object, and win otherwise.  Part 1: when every record
owning the surface has a fractional-scale object bound, a legacy scale
event is a complete no-op — state (hence every recorded scale and Common
block) unchanged, no event, no request.  Parts 2–5: when the surface's
owner (window / popup / layer surface / lock surface respectively) has no
fractional-scale object bound, the legacy event updates the reported scale
and emits a `SurfaceScaleFactorChanged` event. -/
theorem c7_fractional_scale_precedence (st : SctkState) (surface : ObjectId)
    (scale : ℚ) :
    ((∀ w ∈ st.windows, w.surface = surface →
        w.wp_fractional_scale = true) →
      (∀ p ∈ st.popups, p.surface = surface →
        p.wp_fractional_scale = true) →
      (∀ l ∈ st.layer_surfaces, l.surface = surface →
        l.wp_fractional_scale = true) →
      (∀ k ∈ st.lock_surfaces, k.surface = surface →
        k.wp_fractional_scale = true) →
      scaleFactorChanged st surface scale true = (st, []))
    ∧ (∀ w, st.windows.find? (fun w2 => w2.surface == surface) = some w →
        w.wp_fractional_scale = false →
        st.popups.find? (fun p => p.surface == surface) = none →
        st.layer_surfaces.find? (fun l => l.surface == surface) = none →
        st.lock_surfaces.find? (fun l => l.surface == surface) = none →
        windowScaleOf (scaleFactorChanged st surface scale true).1 surface =
          some (some scale) ∧
        (scaleFactorChanged st surface scale true).1.sctk_events =
          st.sctk_events ++
            [SctkEvent.SurfaceScaleFactorChanged scale surface w.id])
    ∧ (∀ p, st.windows.find? (fun w => w.surface == surface) = none →
        st.popups.find? (fun p2 => p2.surface == surface) = some p →
        p.wp_fractional_scale = false →
        st.layer_surfaces.find? (fun l => l.surface == surface) = none →
        st.lock_surfaces.find? (fun l => l.surface == surface) = none →
        popupScaleOf (scaleFactorChanged st surface scale true).1 surface =
          some (some scale) ∧
        (scaleFactorChanged st surface scale true).1.sctk_events =
          st.sctk_events ++
            [SctkEvent.SurfaceScaleFactorChanged scale surface p.id])
    ∧ (∀ l, st.windows.find? (fun w => w.surface == surface) = none →
        st.popups.find? (fun p => p.surface == surface) = none →
        st.layer_surfaces.find? (fun l2 => l2.surface == surface) = some l →
        l.wp_fractional_scale = false →
        st.lock_surfaces.find? (fun k => k.surface == surface) = none →
        layerScaleOf (scaleFactorChanged st surface scale true).1 surface =
          some (some scale) ∧
        (scaleFactorChanged st surface scale true).1.sctk_events =
          st.sctk_events ++
            [SctkEvent.SurfaceScaleFactorChanged scale surface l.id])
    ∧ (∀ k, st.windows.find? (fun w => w.surface == surface) = none →
        st.popups.find? (fun p => p.surface == surface) = none →
        st.layer_surfaces.find? (fun l => l.surface == surface) = none →
        st.lock_surfaces.find? (fun k2 => k2.surface == surface) = some k →
        k.wp_fractional_scale = false →
        lockScaleOf (scaleFactorChanged st surface scale true).1 surface =
          some (some scale) ∧
        (scaleFactorChanged st surface scale true).1.sctk_events =
          st.sctk_events ++
            [SctkEvent.SurfaceScaleFactorChanged scale surface k.id]) := by
  refine ⟨?_, ?_, ?_, ?_, ?_⟩
  · intro hw hp hl hk
    unfold scaleFactorChanged
    cases hf : st.windows.find? (fun w => w.surface == surface) with
    | some w =>
        have hfrac : w.wp_fractional_scale = true :=
          hw w (List.mem_of_find?_eq_some hf)
            (by simpa using List.find?_some hf)
        simp [hfrac]
    | none => simpa using scaleStepPopup_all_frac hp hl hk
  · intro w hfw hfrac hfp hfl hfk
    have hsurf : (w.surface == surface) = true := by simpa using List.find?_some hfw
    unfold scaleFactorChanged
    rw [hfw]
    simp only [hfrac, Bool.and_false, Bool.false_eq_true, if_neg,
      ite_false]
    unfold scaleStepPopup scaleStepLayer scaleStepLock
    rw [hfp, hfl, hfk]
    simp only [scaleFinish, windowScaleOf]
    constructor
    · rw [find?_updateFirst_self hfw (by simpa using hsurf)]
      rfl
    · trivial
  · intro p hfw hfp hfrac hfl hfk
    have hsurf : (p.surface == surface) = true := by simpa using List.find?_some hfp
    unfold scaleFactorChanged
    rw [hfw]
    unfold scaleStepPopup
    rw [hfp]
    simp only [hfrac, Bool.and_false, Bool.false_eq_true, if_neg,
      ite_false]
    unfold scaleStepLayer scaleStepLock
    rw [hfl, hfk]
    simp only [scaleFinish, popupScaleOf]
    constructor
    · rw [find?_updateFirst_self hfp (by simpa using hsurf)]
      rfl
    · trivial
  · intro l hfw hfp hfl hfrac hfk
    have hsurf : (l.surface == surface) = true := by simpa using List.find?_some hfl
    unfold scaleFactorChanged
    rw [hfw]
    unfold scaleStepPopup
    rw [hfp]
    unfold scaleStepLayer
    rw [hfl]
    simp only [hfrac, Bool.and_false, Bool.false_eq_true, if_neg,
      ite_false]
    unfold scaleStepLock
    rw [hfk]
    simp only [scaleFinish, layerScaleOf]
    constructor
    · rw [find?_updateFirst_self hfl (by simpa using hsurf)]
      rfl
    · trivial
  · intro k hfw hfp hfl hfk hfrac
    have hsurf : (k.surface == surface) = true := by simpa using List.find?_some hfk
    unfold scaleFactorChanged
    rw [hfw]
    unfold scaleStepPopup
    rw [hfp]
    unfold scaleStepLayer
    rw [hfl]
    unfold scaleStepLock
    rw [hfk]
    simp only [hfrac, Bool.and_false, Bool.false_eq_true, if_neg,
      ite_false]
    simp only [scaleFinish, lockScaleOf]
    constructor
    · rw [find?_updateFirst_self hfk (by simpa using hsurf)]
      rfl
    · trivial

/-- A layer surface with a bound fractional-scale object. -/
def c7LayerFrac : SctkLayerSurface :=
  { c3Layer with id := 8, surface := 80, wp_fractional_scale := true }

/-- State owning only `c7LayerFrac`. -/
def c7StateFrac : SctkState :=
  { seats := []
    windows := []
    layer_surfaces := [c7LayerFrac]
    popups := []
    lock_surfaces := []
    requested_frame := []
    sctk_events := []
    token_ctr := 0
    to_commit := [] }

/-- The same layer surface without a fractional-scale object. -/
def c7LayerNoFrac : SctkLayerSurface :=
  { c7LayerFrac with wp_fractional_scale := false }

/-- State owning only `c7LayerNoFrac`. -/
def c7StateNoFrac : SctkState :=
  { c7StateFrac with layer_surfaces := [c7LayerNoFrac] }

/-- C7 witness: a legacy scale-2 event for surface 80 is a no-op while the
fractional-scale object is bound, and updates the reported scale and emits
the event when it is not. -/
theorem c7_witness :
    scaleFactorChanged c7StateFrac 80 2 true = (c7StateFrac, []) ∧
    (layerScaleOf (scaleFactorChanged c7StateNoFrac 80 2 true).1 80 =
        some (some 2) ∧
      (scaleFactorChanged c7StateNoFrac 80 2 true).1.sctk_events =
        c7StateNoFrac.sctk_events ++
          [SctkEvent.SurfaceScaleFactorChanged 2 80 8]) :=
  ⟨(c7_fractional_scale_precedence c7StateFrac 80 2).1
      (by decide) (by decide) (by decide) (by decide),
   (c7_fractional_scale_precedence c7StateNoFrac 80 2).2.2.2.1 c7LayerNoFrac
      (by decide) (by decide) (by decide) (by decide) (by decide)⟩

/-- Output selection for a layer surface (`IcedOutput`). -/
inductive IcedOutput where
  | All
  | Active
  | Output (output : ObjectId)
deriving DecidableEq, Repr

/-- Settings of a layer-surface creation (`SctkLayerSurfaceSettings`);
`nameSpace` stands for the Rust field `namespace`, a reserved word here. -/
structure LayerSurfaceSettings where
  id : SurfaceId
  layer : WlrLayer
  keyboard_interactivity : KeyboardInteractivity
  pointer_interactivity : Bool
  anchor : Anchor
  output : IcedOutput
  nameSpace : String
  margin : IcedMargin
  size : Option (Option Nat × Option Nat)
  exclusive_zone : Int
deriving DecidableEq, Repr

/-- The size normalization of `SctkState::get_layer_surface`
(event_loop/state.rs): for the vertical axis, when both BOTTOM and TOP are
anchored the height is forced to `None`, otherwise it becomes
`unwrap_or(1).max(1)`; same for the horizontal axis with LEFT and RIGHT. -/
def normalizeLayerSize (anchor : Anchor) (size : Option (Option Nat × Option Nat)) :
    Option Nat × Option Nat :=
  let size := size.getD (none, none)
  let size1 :=
    if anchor.bottom && anchor.top then none
    else some (max (size.2.getD 1) 1)
  let size0 :=
    if anchor.left && anchor.right then none
    else some (max (size.1.getD 1) 1)
  (size0, size1)

/-- The success path of `SctkState::get_layer_surface` after the layer
shell was found bound: normalize the size, issue the role requests and the
initial commit on the fresh `wl_surface`, and push the record, whose
`requested_size` is the normalized size and whose Common block starts from
the normalized size with ones for the stretched dimensions. -/
def getLayerSurfaceRecord (settings : LayerSurfaceSettings)
    (wl_surface : ObjectId) (has_viewporter has_fractional : Bool) :
    SctkLayerSurface × List Request :=
  let size := normalizeLayerSize settings.anchor settings.size
  ({ id := settings.id
     surface := wl_surface
     requested_size := size
     current_size := none
     layer := settings.layer
     anchor := settings.anchor
     keyboard_interactivity := settings.keyboard_interactivity
     margin := settings.margin
     exclusive_zone := settings.exclusive_zone
     last_configure := none
     wp_fractional_scale := has_fractional
     wp_viewport := has_viewporter
     common := Common.ofSize (size.1.getD 1, size.2.getD 1) },
   [Request.layer_set_anchor wl_surface settings.anchor,
    Request.layer_set_keyboard_interactivity wl_surface
      settings.keyboard_interactivity,
    Request.layer_set_margin wl_surface settings.margin,
    Request.layer_set_size wl_surface (size.1.getD 0) (size.2.getD 0),
    Request.layer_set_exclusive_zone wl_surface settings.exclusive_zone] ++
     (if !settings.pointer_interactivity then
       [Request.layer_set_input_region_empty wl_surface]
     else []) ++
     [Request.commit wl_surface])

/-- C8: per axis, when both opposing anchors are set the requested
dimension is forced to null; otherwise an absent or zero dimension becomes
one and a positive dimension is kept; hence every created layer-surface
record satisfies the invariant that a dimension whose two opposite anchors
are both set is null. -/
theorem c8_layer_size_normalization :
    (∀ anchor size,
      ((anchor.top && anchor.bottom) = true →
        (normalizeLayerSize anchor size).2 = none) ∧
      ((anchor.top && anchor.bottom) = false →
        (((size.getD (none, none)).2 = none ∨
            (size.getD (none, none)).2 = some 0) →
          (normalizeLayerSize anchor size).2 = some 1) ∧
        (∀ v, 0 < v → (size.getD (none, none)).2 = some v →
          (normalizeLayerSize anchor size).2 = some v)) ∧
      ((anchor.left && anchor.right) = true →
        (normalizeLayerSize anchor size).1 = none) ∧
      ((anchor.left && anchor.right) = false →
        (((size.getD (none, none)).1 = none ∨
            (size.getD (none, none)).1 = some 0) →
          (normalizeLayerSize anchor size).1 = some 1) ∧
        (∀ v, 0 < v → (size.getD (none, none)).1 = some v →
          (normalizeLayerSize anchor size).1 = some v)))
    ∧ (∀ settings surface vp fs,
        ((settings.anchor.top && settings.anchor.bottom) = true →
          ((getLayerSurfaceRecord settings surface vp fs).1.requested_size).2
            = none) ∧
        ((settings.anchor.left && settings.anchor.right) = true →
          ((getLayerSurfaceRecord settings surface vp fs).1.requested_size).1
            = none)) := by
  have hmain : ∀ anchor size,
      ((anchor.top && anchor.bottom) = true →
        (normalizeLayerSize anchor size).2 = none) ∧
      ((anchor.top && anchor.bottom) = false →
        (((size.getD (none, none)).2 = none ∨
            (size.getD (none, none)).2 = some 0) →
          (normalizeLayerSize anchor size).2 = some 1) ∧
        (∀ v, 0 < v → (size.getD (none, none)).2 = some v →
          (normalizeLayerSize anchor size).2 = some v)) ∧
      ((anchor.left && anchor.right) = true →
        (normalizeLayerSize anchor size).1 = none) ∧
      ((anchor.left && anchor.right) = false →
        (((size.getD (none, none)).1 = none ∨
            (size.getD (none, none)).1 = some 0) →
          (normalizeLayerSize anchor size).1 = some 1) ∧
        (∀ v, 0 < v → (size.getD (none, none)).1 = some v →
          (normalizeLayerSize anchor size).1 = some v)) := by
    intro anchor size
    refine ⟨?_, ?_, ?_, ?_⟩
    · intro h
      simp [normalizeLayerSize, Bool.and_comm, h]
    · intro h
      constructor
      · intro habs
        rcases habs with habs | habs <;>
          simp [normalizeLayerSize, Bool.and_comm anchor.bottom anchor.top,
            h, habs]
      · intro v hv hsome
        simp [normalizeLayerSize, Bool.and_comm anchor.bottom anchor.top,
          h, hsome]
        omega
    · intro h
      simp [normalizeLayerSize, h]
    · intro h
      constructor
      · intro habs
        rcases habs with habs | habs <;>
          simp [normalizeLayerSize, h, habs]
      · intro v hv hsome
        simp [normalizeLayerSize, h, hsome]
        omega
  refine ⟨hmain, ?_⟩
  intro settings surface vp fs
  constructor
  · intro h
    show (normalizeLayerSize settings.anchor settings.size).2 = none
    exact (hmain settings.anchor settings.size).1 h
  · intro h
    show (normalizeLayerSize settings.anchor settings.size).1 = none
    exact (hmain settings.anchor settings.size).2.2.1 h

/-- C8 witness: with TOP and BOTTOM anchored and a requested size of
(0, 200), the height is forced to null, the width (zero) becomes one, and
the created record has a null height. -/
theorem c8_witness :
    normalizeLayerSize
      { top := true, bottom := true, left := false, right := false }
      (some (some 0, some 200)) = (some 1, none) ∧
    ((getLayerSurfaceRecord
        { id := 9
          layer := .Top
          keyboard_interactivity := .NoInteractivity
          pointer_interactivity := true
          anchor :=
            { top := true, bottom := true, left := false, right := false }
          output := .All
          nameSpace := "panel"
          margin := { top := 0, right := 0, bottom := 0, left := 0 }
          size := some (some 0, some 200)
          exclusive_zone := 0 }
        90 false false).1.requested_size).2 = none := by
  have ha :=
    (c8_layer_size_normalization.1
      { top := true, bottom := true, left := false, right := false }
      (some (some 0, some 200))).1 (by decide)
  have hb :=
    ((c8_layer_size_normalization.1
      { top := true, bottom := true, left := false, right := false }
      (some (some 0, some 200))).2.2.2 (by decide)).1 (Or.inr (by decide))
  have hc :=
    (c8_layer_size_normalization.2
      { id := 9
        layer := .Top
        keyboard_interactivity := .NoInteractivity
        pointer_interactivity := true
        anchor :=
          { top := true, bottom := true, left := false, right := false }
        output := .All
        nameSpace := "panel"
        margin := { top := 0, right := 0, bottom := 0, left := 0 }
        size := some (some 0, some 200)
        exclusive_zone := 0 }
      90 false false).1 (by decide)
  refine ⟨?_, hc⟩
  have : normalizeLayerSize
      { top := true, bottom := true, left := false, right := false }
      (some (some 0, some 200)) =
      ((normalizeLayerSize
        { top := true, bottom := true, left := false, right := false }
        (some (some 0, some 200))).1,
       (normalizeLayerSize
        { top := true, bottom := true, left := false, right := false }
        (some (some 0, some 200))).2) := rfl
  rw [this, ha, hb]

/-- Pointer event kinds (`sctk::seat::pointer::PointerEventKind`); the axis
payload keeps the discrete deltas, absolute deltas and the horizontal stop
flag, which drive the translation. -/
inductive PointerEventKind where
  | Enter (serial : Nat)
  | Leave (serial : Nat)
  | Motion (time : Nat)
  | Press (time : Nat) (button : Nat) (serial : Nat)
  | Release (time : Nat) (button : Nat) (serial : Nat)
  | Axis (time : Nat) (hDiscrete vDiscrete : Int) (hAbs vAbs : ℚ)
      (hStop : Bool)
deriving DecidableEq, Repr

/-- A pointer event delivered within a frame. -/
structure PointerEvent where
  surface : ObjectId
  position : ℚ × ℚ
  kind : PointerEventKind
deriving DecidableEq, Repr

/-- Linux input code of the left mouse button. -/
def BTN_LEFT : Nat := 0x110

/-- Cursor icon chosen for a resize edge (handlers/seat/pointer.rs). -/
def resizeEdgeIcon : ResizeEdge → CursorIcon
  | .Top => .NResize
  | .Bottom => .SResize
  | .Left => .WResize
  | .TopLeft => .NwResize
  | .BottomLeft => .SwResize
  | .Right => .EResize
  | .TopRight => .NeResize
  | .BottomRight => .SeResize

/-- The per-event hit test of `pointer_frame`: find the window owning the
event's surface, and when it is resizable run the border hit test at the
event's position against its current size. -/
def frameHitTest (windows : List SctkWindow) (e : PointerEvent) :
    Option (ResizeEdge × SctkWindow) :=
  (windows.find? (fun w => w.surface == e.surface)).bind fun w =>
    w.resizable.bind fun border =>
      (edgeHitTest (w.current_size.1 : ℚ) (w.current_size.2 : ℚ) border
        e.position.1 e.position.2).map fun edge => (edge, w)

/-- Translation of a forwarded pointer event into the event pushed into the
sink: motion keeps the full pointer event, everything else becomes a winit
window event. -/
def translatePointerEvent (e : PointerEvent) : SctkEvent :=
  match e.kind with
  | .Motion time => SctkEvent.PointerMotion e.surface e.position.1
      e.position.2 time
  | .Enter _ => SctkEvent.Winit e.surface .CursorEntered
  | .Leave _ => SctkEvent.Winit e.surface .CursorLeft
  | .Press _ button _ => SctkEvent.Winit e.surface (.MouseInput true button)
  | .Release _ button _ =>
      SctkEvent.Winit e.surface (.MouseInput false button)
  | .Axis _ hD vD hA vA hStop =>
      SctkEvent.Winit e.surface
        (if hD > 0 then .MouseWheelLine hD vD hStop
        else .MouseWheelPixel hA vA hStop)

/-- The per-seat tracking match at the end of each event's processing:
Enter records pointer focus, Leave clears it along with the active icon,
Press records the last press. -/
def seatTrackUpdate (seat : SctkSeat) (e : PointerEvent) : SctkSeat :=
  match e.kind with
  | .Enter _ => { seat with ptr_focus := some e.surface }
  | .Leave _ => { seat with ptr_focus := none, active_icon := none }
  | .Press time button serial =>
      { seat with last_ptr_press := some (time, button, serial) }
  | _ => seat

/-- Forwarding (only on the active seat) followed by per-seat tracking. -/
def pointerEventTail (isActive : Bool) (seat : SctkSeat) (e : PointerEvent) :
    SctkSeat × List SctkEvent :=
  (seatTrackUpdate seat e,
   if isActive then [translatePointerEvent e] else [])

/-- Processing of one event of a pointer frame
(`PointerHandler::pointer_frame`, handlers/seat/pointer.rs).  Returns the
updated seat, the events pushed into the sink, the requests issued, and
whether the `return` statements of the resize-border branch ended the whole
frame.  Over the resize inset: a left-button press records the press and
issues an interactive resize with its serial, ending the frame; motion at
most changes the cursor icon, ending the frame; any other kind falls
through to an icon change plus the normal forwarding and tracking.  Outside
the inset the application-requested icon is restored when it differs from
the active one. -/
def processPointerEvent (windows : List SctkWindow) (isActive : Bool)
    (seat : SctkSeat) (e : PointerEvent) :
    SctkSeat × List SctkEvent × List Request × Bool :=
  match frameHitTest windows e with
  | some (resize_edge, w) =>
    let icon := resizeEdgeIcon resize_edge
    match e.kind with
    | .Press time button serial =>
      if button == BTN_LEFT then
        ({ seat with last_ptr_press := some (time, button, serial) },
         [], [Request.toplevel_resize w.surface serial resize_edge], true)
      else
        let r := if seat.active_icon ≠ some icon then seat.set_cursor icon
          else (seat, [])
        let t := pointerEventTail isActive r.1 e
        (t.1, t.2, r.2, false)
    | .Motion _ =>
      if seat.active_icon ≠ some icon then
        let r := seat.set_cursor icon
        (r.1, [], r.2, true)
      else (seat, [], [], true)
    | _ =>
      let r := if seat.active_icon ≠ some icon then seat.set_cursor icon
        else (seat, [])
      let t := pointerEventTail isActive r.1 e
      (t.1, t.2, r.2, false)
  | none =>
    let r := if seat.active_icon ≠ seat.icon then
        seat.set_cursor (seat.icon.getD .DefaultIcon)
      else (seat, [])
    let t := pointerEventTail isActive r.1 e
    (t.1, t.2, r.2, false)

/-- Processing of the events of one frame in order, stopping at the first
event whose branch returns from the whole handler. -/
def processPointerEvents (windows : List SctkWindow) (isActive : Bool)
    (seat : SctkSeat) : List PointerEvent →
      SctkSeat × List SctkEvent × List Request
  | [] => (seat, [], [])
  | e :: rest =>
    let r := processPointerEvent windows isActive seat e
    if r.2.2.2 then (r.1, r.2.1, r.2.2.1)
    else
      let rr := processPointerEvents windows isActive r.1 rest
      (rr.1, r.2.1 ++ rr.2.1, r.2.2.1 ++ rr.2.2)

/-- The seat lookup of `pointer_frame`: the first seat whose pointer device
is the delivering pointer, together with its index; index 0 is the active
seat. -/
def seatIndexForPointer (seats : List SctkSeat) (pointer : ObjectId) :
    Option Nat :=
  seats.findIdx? fun s => s.ptr == some pointer

/-- The handler `PointerHandler::pointer_frame`: locate the seat (events on
unknown pointers are dropped), process the frame's events, write the seat
back and append the pushed events to the sink. -/
def pointerFrame (st : SctkState) (pointer : ObjectId)
    (events : List PointerEvent) : SctkState × List Request :=
  match seatIndexForPointer st.seats pointer with
  | none => (st, [])
  | some i =>
    match st.seats.get? i with
    | none => (st, [])
    | some seat =>
      let r := processPointerEvents st.windows (i == 0) seat events
      ({ st with
          seats := st.seats.set i r.1
          sctk_events := st.sctk_events ++ r.2.1 }, r.2.2)

theorem processPointerEvent_inactive_events (windows : List SctkWindow)
    (seat : SctkSeat) (e : PointerEvent) :
    (processPointerEvent windows false seat e).2.1 = [] := by
  unfold processPointerEvent
  cases hf : frameHitTest windows e with
  | none => simp [pointerEventTail]
  | some pr =>
      cases pr with
      | mk edge w =>
          cases hk : e.kind <;>
            simp [pointerEventTail] <;> split <;>
              simp [pointerEventTail, SctkSeat.set_cursor]

theorem processPointerEvents_inactive_events (windows : List SctkWindow)
    (seat : SctkSeat) (events : List PointerEvent) :
    (processPointerEvents windows false seat events).2.1 = [] := by
  induction events generalizing seat with
  | nil => rfl
  | cons e rest ih =>
      unfold processPointerEvents
      by_cases hstop : (processPointerEvent windows false seat e).2.2.2 = true
      · simp [hstop, processPointerEvent_inactive_events]
      · simp [hstop, processPointerEvent_inactive_events, ih]

/-- A seat with a pointer device and no other state. -/
def c9SeatWithPtr (p : ObjectId) : SctkSeat :=
  { ptr := some p
    ptr_focus := none
    last_ptr_press := none
    kbd_focus := none
    last_kbd_press := none
    icon := none
    active_icon := none }

/-- A resizable window (border 8) with id 4 and surface 40. -/
def c9Window : SctkWindow :=
  { c2Window with id := 4, surface := 40, resizable := some 8 }

/-- Two seats (seat of pointer 1 is active) and the resizable window. -/
def c9State : SctkState :=
  { seats := [c9SeatWithPtr 1, c9SeatWithPtr 2]
    windows := [c9Window]
    layer_surfaces := []
    popups := []
    lock_surfaces := []
    requested_frame := []
    sctk_events := []
    token_ctr := 0
    to_commit := [] }

/-- A frame on the non-active seat: a motion over the resize inset followed
by an Enter. -/
def c9Events : List PointerEvent :=
  [{ surface := 40, position := (4, 4), kind := .Motion 100 },
   { surface := 40, position := (400, 300), kind := .Enter 7 }]

/-- C9 counterexample: the motion's early return consumes the frame, so the
following Enter never updates the non-active seat's pointer focus — it
stays `none` — refuting that events on non-active seats always update that
seat's pointer focus and serials; the frame produces only the cursor-icon
request and no UI event. -/
theorem c9_counterexample :
    pointerFrame c9State 2 c9Events =
      ({ c9State with
          seats :=
            [c9SeatWithPtr 1,
             { c9SeatWithPtr 2 with active_icon := some .NwResize }] },
       [Request.set_cursor .NwResize]) ∧
    ((pointerFrame c9State 2 c9Events).1.seats.get? 1).map
      (fun s => s.ptr_focus) = some none := by
  constructor
  · decide
  · decide

/-- C9 amended: (1) a frame delivered on a non-active seat pushes no UI
events at all (while still applying whatever per-seat updates its processed
events reach); (2) a motion over a resizable window's resize inset pushes
no UI event on any seat, leaves the seat's focus and last press unchanged,
at most changes the cursor icon, and consumes the rest of the frame;
(3) a left-button press over the inset records that press, issues an
interactive resize with that press's serial instead of being forwarded, and
consumes the rest of the frame; (4) an event outside the inset is processed
to completion and updates the seat's pointer focus (Enter/Leave) and
last-press serial (Press). -/
theorem c9_amended_input_routing :
    (∀ (st : SctkState) (pointer : ObjectId) (events : List PointerEvent)
        (i : Nat),
      seatIndexForPointer st.seats pointer = some i → i ≠ 0 →
      (pointerFrame st pointer events).1.sctk_events = st.sctk_events)
    ∧ (∀ windows (isActive : Bool) (seat : SctkSeat) (e : PointerEvent)
        edge w time,
      frameHitTest windows e = some (edge, w) → e.kind = .Motion time →
      (processPointerEvent windows isActive seat e).2.1 = [] ∧
      (processPointerEvent windows isActive seat e).2.2.2 = true ∧
      (processPointerEvent windows isActive seat e).1.ptr_focus =
        seat.ptr_focus ∧
      (processPointerEvent windows isActive seat e).1.last_ptr_press =
        seat.last_ptr_press ∧
      ((processPointerEvent windows isActive seat e).2.2.1 = [] ∨
        (processPointerEvent windows isActive seat e).2.2.1 =
          [Request.set_cursor (resizeEdgeIcon edge)]))
    ∧ (∀ windows (isActive : Bool) (seat : SctkSeat) (e : PointerEvent)
        edge w time serial,
      frameHitTest windows e = some (edge, w) →
      e.kind = .Press time BTN_LEFT serial →
      processPointerEvent windows isActive seat e =
        ({ seat with last_ptr_press := some (time, BTN_LEFT, serial) },
         [], [Request.toplevel_resize w.surface serial edge], true))
    ∧ (∀ windows (isActive : Bool) (seat : SctkSeat) (e : PointerEvent),
      frameHitTest windows e = none →
      (processPointerEvent windows isActive seat e).2.2.2 = false ∧
      (∀ serial, e.kind = .Enter serial →
        (processPointerEvent windows isActive seat e).1.ptr_focus =
          some e.surface) ∧
      (∀ serial, e.kind = .Leave serial →
        (processPointerEvent windows isActive seat e).1.ptr_focus = none) ∧
      (∀ time button serial, e.kind = .Press time button serial →
        (processPointerEvent windows isActive seat e).1.last_ptr_press =
          some (time, button, serial))) := by
  refine ⟨?_, ?_, ?_, ?_⟩
  · intro st pointer events i hidx hne
    have hia : (i == 0) = false := by
      simp only [beq_eq_false_iff_ne, ne_eq]
      exact hne
    cases hg : st.seats[i]? with
    | none => simp [pointerFrame, hidx, hg]
    | some seat =>
        simp [pointerFrame, hidx, hg, hia,
          processPointerEvents_inactive_events]
  · intro windows isActive seat e edge w time hf hk
    unfold processPointerEvent
    rw [hf, hk]
    by_cases hi : seat.active_icon = some (resizeEdgeIcon edge)
    · simp [hi]
    · unfold SctkSeat.set_cursor
      cases seat.ptr <;> simp [hi]
  · intro windows isActive seat e edge w time serial hf hk
    unfold processPointerEvent
    rw [hf, hk]
    simp
  · intro windows isActive seat e hf
    unfold processPointerEvent
    rw [hf]
    refine ⟨by simp [pointerEventTail], ?_, ?_, ?_⟩
    · intro serial hk
      simp [pointerEventTail, seatTrackUpdate, hk]
    · intro serial hk
      simp [pointerEventTail, seatTrackUpdate, hk]
    · intro time button serial hk
      simp [pointerEventTail, seatTrackUpdate, hk]

/-- C9 amended witness: on the concrete two-seat state, the non-active
frame adds no UI events; an inset motion on the active seat pushes nothing;
an inset left press becomes an interactive resize with serial 99; an Enter
outside the inset records pointer focus. -/
theorem c9_amended_witness :
    (pointerFrame c9State 2 c9Events).1.sctk_events = c9State.sctk_events ∧
    (processPointerEvent [c9Window] true (c9SeatWithPtr 1)
      { surface := 40, position := (4, 4), kind := .Motion 100 }).2.1 = [] ∧
    processPointerEvent [c9Window] true (c9SeatWithPtr 1)
        { surface := 40, position := (4, 4),
          kind := .Press 5 BTN_LEFT 99 } =
      ({ c9SeatWithPtr 1 with last_ptr_press := some (5, BTN_LEFT, 99) },
       [], [Request.toplevel_resize 40 99 .TopLeft], true) ∧
    (processPointerEvent [c9Window] true (c9SeatWithPtr 1)
      { surface := 40, position := (400, 300),
        kind := .Enter 7 }).1.ptr_focus = some 40 :=
  ⟨c9_amended_input_routing.1 c9State 2 c9Events 1 (by decide) (by decide),
   (c9_amended_input_routing.2.1 [c9Window] true (c9SeatWithPtr 1)
     { surface := 40, position := (4, 4), kind := .Motion 100 }
     .TopLeft c9Window 100 (by decide) rfl).1,
   c9_amended_input_routing.2.2.1 [c9Window] true (c9SeatWithPtr 1)
     { surface := 40, position := (4, 4), kind := .Press 5 BTN_LEFT 99 }
     .TopLeft c9Window 5 99 (by decide) rfl,
   (c9_amended_input_routing.2.2.2 [c9Window] true (c9SeatWithPtr 1)
     { surface := 40, position := (400, 300), kind := .Enter 7 }
     (by norm_num [frameHitTest, c9Window, c2Window, edgeHitTest])).2.1
     7 rfl⟩

end Iced
